import Mathlib

/-!
Shallow embedding of the LevantFlow status service (src/index.js).

The service is a single Express application: a middleware chain
(helmet, compression, cors, express.json, rate limiter, a security-header
middleware, and a 4-arity error-handling middleware), two GET routes
(/ and /health), a catch-all 404 handler, and process-level handlers for
uncaughtException and unhandledRejection.

Modelling conventions:
 - JSON documents are an inductive type; object construction mirrors
   JSON.stringify, which drops keys whose value is the JS undefined.
   Optional values in an object literal therefore pass through mkObj,
   which keeps only the present ones.
 - process.env.NODE_ENV is an Option String (none when unset); the JS
   expression NODE_ENV || "development" treats the empty string as falsy.
 - Clock readings, process.memoryUsage(), os metrics and similar
   per-request samples are gathered in a Metrics record handed to each
   handler, exactly the values the handlers read at response time.
 - Machine numbers are modelled as Nat and Rat; Math.round is the
   Mathlib round on Rat (round half toward positive infinity, matching
   the JS Math.round on the non-negative inputs that occur here).
 - Express dispatch: a non-error request walks the registered layers in
   order, skipping 4-arity (error) layers; a fault raised in a layer is
   handed to the first error layer registered after the faulting layer,
   and to the framework final handler (an HTML 500 response) when no
   such layer exists.  The rate limiter increments the callers counter
   for the current fixed window and blocks once the counter exceeds max.
-/

namespace LevantFlow

/-- JSON values as produced by res.json. -/
inductive Json where
  | null : Json
  | bool : Bool → Json
  | num : ℚ → Json
  | str : String → Json
  | arr : List Json → Json
  | obj : List (String × Json) → Json

/-- Field lookup in an association list of JSON object fields. -/
def lookupField : List (String × Json) → String → Option Json
  | [], _ => none
  | (k, v) :: rest, key => if k = key then some v else lookupField rest key

/-- Field lookup on a JSON value: some value on objects that carry the key,
none otherwise. -/
def Json.lookup : Json → String → Option Json
  | .obj fields, key => lookupField fields key
  | _, _ => none

/-- Follow a path of keys through nested JSON objects. -/
def getPath (j : Json) : List String → Option Json
  | [] => some j
  | key :: rest =>
    match j.lookup key with
    | some v => getPath v rest
    | none => none

/-- Build a JSON object from an object literal whose values may be the JS
undefined (none): JSON.stringify omits such keys, so mkObj keeps only the
present values. -/
def mkObj (fields : List (String × Option Json)) : Json :=
  .obj (fields.filterMap (fun p => p.2.map (fun v => (p.1, v))))

/-- The environment variables the service reads. -/
structure Env where
  nodeEnv : Option String
  firebaseProjectId : Option String

/-- Model of NODE_ENV || "development": the empty string is falsy in JS. -/
def envOrDefault (e : Option String) : String :=
  match e with
  | none => "development"
  | some s => if s = "" then "development" else s

/-- Process-scoped immutable state: startTime is recorded once at launch
(const startTime = new Date()) and only read afterwards. -/
structure ProcState where
  startTimeIso : String

/-- Per-request samples of the clock and the process and host metrics, as
read inside the handlers at response time. -/
structure Metrics where
  nowIso : String
  uptime : ℚ
  rss : ℕ
  heapUsed : ℕ
  heapTotal : ℕ
  loadavg : ℚ × ℚ × ℚ
  totalmem : ℕ
  freemem : ℕ
  cpus : ℕ
  pid : ℕ
  nodeVersion : String
  platform : String
  hostname : String

/-- Configuration record passed to rateLimit in src/index.js. -/
structure RateLimitConfig where
  windowMs : ℕ
  max : ℕ
  message : String
  standardHeaders : Bool
  legacyHeaders : Bool

/-- The limiter constructed at startup (src/index.js lines 110 to 116). -/
def limiter : RateLimitConfig :=
  { windowMs := 15 * 60 * 1000
    max := 100
    message := "Too many requests from this IP, please try again later."
    standardHeaders := true
    legacyHeaders := false }

/-- Response bodies: res.json sends a JSON document, res.send on a string
(used by the rate limiter message and the framework final handler) sends
text. -/
inductive Body where
  | json : Json → Body
  | text : String → Body

/-- An HTTP response: status code and body. -/
structure Response where
  status : ℕ
  body : Body

/-- The JSON document of a response, when its body is JSON. -/
def Response.jsonBody : Response → Option Json
  | ⟨_, .json j⟩ => some j
  | _ => none

/-- Truthiness of the firebaseApp handle: initializeApp returns an object,
so the double negation in the handlers is always true. -/
def firebaseReady : Bool := true

/-- Math.round(bytes / 1024 / 1024 * 100): the rounded number of hundredths
of a megabyte, the numeric core of the health memory fields. -/
def memCents (bytes : ℕ) : ℤ :=
  round ((bytes : ℚ) / 1024 / 1024 * 100)

/-- Decimal rendering of a count of hundredths as JS prints the number
cents / 100: no fractional part when it is whole, one digit when the
hundredths end in zero, two digits otherwise. -/
def hundredthsToJsStr (cents : ℕ) : String :=
  let ip := cents / 100
  let fr := cents % 100
  if fr = 0 then toString ip
  else if fr % 10 = 0 then toString ip ++ "." ++ toString (fr / 10)
  else if fr < 10 then toString ip ++ ".0" ++ toString fr
  else toString ip ++ "." ++ toString fr

/-- The string Math.round(bytes / 1024 / 1024 * 100) / 100 + "MB" built by
the health handler. -/
def mbString (bytes : ℕ) : String :=
  hundredthsToJsStr (memCents bytes).toNat ++ "MB"

/-- Body of the GET / handler (src/index.js lines 143 to 166). -/
def rootBody (env : Env) (st : ProcState) (m : Metrics) : Json :=
  mkObj
    [ ("message", some (.str "Welcome to LevantFlow API"))
    , ("status", some (.str "online"))
    , ("timestamp", some (.str m.nowIso))
    , ("server", some (mkObj
        [ ("uptime", some (.num m.uptime))
        , ("startTime", some (.str st.startTimeIso))
        , ("memory", some (mkObj
            [ ("rss", some (.num (m.rss : ℚ)))
            , ("heapTotal", some (.num (m.heapTotal : ℚ)))
            , ("heapUsed", some (.num (m.heapUsed : ℚ))) ]))
        , ("node", some (.str m.nodeVersion))
        , ("platform", some (.str m.platform))
        , ("hostname", some (.str m.hostname)) ]))
    , ("environment", some (.str (envOrDefault env.nodeEnv)))
    , ("rateLimit", some (mkObj
        [ ("windowMs", some (.num (limiter.windowMs : ℚ)))
        , ("max", some (.num (limiter.max : ℚ))) ]))
    , ("firebase", some (mkObj
        [ ("initialized", some (.bool firebaseReady))
        , ("projectId", env.firebaseProjectId.map Json.str) ])) ]

/-- Body of the GET /health handler (src/index.js lines 169 to 193). -/
def healthBody (m : Metrics) : Json :=
  mkObj
    [ ("status", some (.str "healthy"))
    , ("uptime", some (.num m.uptime))
    , ("timestamp", some (.str m.nowIso))
    , ("system", some (mkObj
        [ ("loadavg", some (.arr [.num m.loadavg.1, .num m.loadavg.2.1, .num m.loadavg.2.2]))
        , ("totalmem", some (.num (m.totalmem : ℚ)))
        , ("freemem", some (.num (m.freemem : ℚ)))
        , ("cpus", some (.num (m.cpus : ℚ))) ]))
    , ("process", some (mkObj
        [ ("memory", some (mkObj
            [ ("used", some (.str (mbString m.heapUsed)))
            , ("total", some (.str (mbString m.heapTotal))) ]))
        , ("pid", some (.num (m.pid : ℚ)))
        , ("version", some (.str m.nodeVersion)) ]))
    , ("firebase", some (mkObj
        [ ("initialized", some (.bool firebaseReady)) ])) ]

/-- Body of the catch-all 404 handler (src/index.js lines 196 to 201). -/
def notFoundBody (m : Metrics) : Json :=
  mkObj
    [ ("message", some (.str "Route not found"))
    , ("timestamp", some (.str m.nowIso)) ]

/-- Dispatch of one request through the registered chain, for a client
whose counter in the current rate-limit window holds priorHits previous
requests.  The limiter runs before the routes: it increments the counter
and blocks with 429 and the configured message once the count exceeds max.
Otherwise the request reaches the router: GET / and GET /health answer 200
with their documents, and everything else falls through to the 404
handler. -/
def handle (env : Env) (st : ProcState) (priorHits : ℕ) (m : Metrics)
    (method path : String) : Response :=
  if limiter.max < priorHits + 1 then ⟨429, .text limiter.message⟩
  else if method = "GET" ∧ path = "/" then ⟨200, .json (rootBody env st m)⟩
  else if method = "GET" ∧ path = "/health" then ⟨200, .json (healthBody m)⟩
  else ⟨404, .json (notFoundBody m)⟩

/-- Run a list of requests from one client inside a single rate-limit
window, threading the limiter counter: each request increments it. -/
def runSeq (env : Env) (st : ProcState) (m : Metrics) :
    List (String × String) → ℕ → List Response
  | [], _ => []
  | (meth, p) :: rest, hits =>
      handle env st hits m meth p :: runSeq env st m rest (hits + 1)

/-- One registered layer of the Express application: a plain middleware,
the 4-arity error-handling middleware, a route, or the catch-all 404. -/
inductive Layer where
  | mw : String → Layer
  | errHandler : Layer
  | route : String → String → Layer
  | fallback : Layer
deriving DecidableEq

/-- The layers of src/index.js in registration order (lines 119 to 201):
helmet, compression, cors, express.json, the rate limiter, the
security-header middleware, then the error-handling middleware, then the
two routes, then the 404 handler. -/
def appLayers : List Layer :=
  [ .mw "helmet"
  , .mw "compression"
  , .mw "cors"
  , .mw "expressJson"
  , .mw "rateLimit"
  , .mw "securityHeaders"
  , .errHandler
  , .route "GET" "/"
  , .route "GET" "/health"
  , .fallback ]

/-- Whether a layer is the 4-arity error-handling middleware. -/
def isErrLayer : Layer → Bool
  | .errHandler => true
  | _ => false

/-- Whether some error-handling layer is registered after position i: in
Express, a fault raised at layer i can only be intercepted by an error
layer that comes later in the stack. -/
def hasErrHandlerAfter (layers : List Layer) (i : ℕ) : Bool :=
  (layers.drop (i + 1)).any isErrLayer

/-- Response of the error-handling middleware (src/index.js lines 134 to
140): logs, then sends 500 with message Something went wrong! and, only
when NODE_ENV is exactly the string development, an error field holding
the fault message; otherwise the field is the JS undefined and JSON
serialization omits it. -/
def errorMiddlewareResponse (env : Env) (errMessage : String) : Response :=
  ⟨500, .json (mkObj
    [ ("message", some (.str "Something went wrong!"))
    , ("error",
        if env.nodeEnv = some "development"
        then some (.str errMessage) else none) ])⟩

/-- Modelled from the Express framework (an external collaborator, not in
src/): when no error-handling layer lies after the fault point, the
built-in final handler answers the request with status 500 and an HTML
error page, not with the JSON produced by the application middleware. -/
def expressDefaultFaultResponse (errMessage : String) : Response :=
  ⟨500, .text ("<html>Internal Server Error " ++ errMessage ++ "</html>")⟩

/-- Outcome of a fault raised at layer position faultIdx: Express forwards
it to the first error-handling layer registered after that position, and
to the framework final handler when none exists. -/
def handleFault (env : Env) (faultIdx : ℕ) (errMessage : String) : Response :=
  if hasErrHandlerAfter appLayers faultIdx then
    errorMiddlewareResponse env errMessage
  else
    expressDefaultFaultResponse errMessage

/-- Position of the GET / route in the registered stack. -/
def rootRouteIdx : ℕ := 7

/-- One observable step of the process-level fatal-fault handlers. -/
inductive FatalStep where
  | log : String → FatalStep
  | exitProcess : ℕ → FatalStep
deriving DecidableEq

/-- Handler for uncaughtException (src/index.js lines 222 to 225):
console.error, then process.exit(1). -/
def uncaughtExceptionHandler (errMessage : String) : List FatalStep :=
  [ .log ("Uncaught Exception: " ++ errMessage)
  , .exitProcess 1 ]

/-- Handler for unhandledRejection (src/index.js lines 228 to 231):
console.error with the promise and the reason, then process.exit(1). -/
def unhandledRejectionHandler (promiseDesc reason : String) : List FatalStep :=
  [ .log ("Unhandled Rejection at: " ++ promiseDesc ++ " reason: " ++ reason)
  , .exitProcess 1 ]

/-- The fatal-fault policy of the spec, as a predicate on handler traces:
the handler logs once and then terminates the process with a non-zero
exit status, with no further action. -/
def terminatesNonzeroAfterLogging (trace : List FatalStep) : Prop :=
  ∃ s c, trace = [FatalStep.log s, FatalStep.exitProcess c] ∧ c ≠ 0

/-- Sample environment with NODE_ENV unset. -/
def sampleEnv : Env := ⟨none, none⟩

/-- Sample environment with NODE_ENV set to development. -/
def devEnv : Env := ⟨some "development", none⟩

/-- Sample process state. -/
def sampleState : ProcState := ⟨"2026-01-01T00:00:00.000Z"⟩

/-- Sample request-time metrics: one MiB of heap used out of two. -/
def sampleMetrics : Metrics :=
  { nowIso := "2026-01-01T00:00:01.000Z"
    uptime := 1
    rss := 4194304
    heapUsed := 1048576
    heapTotal := 2097152
    loadavg := (0, 0, 0)
    totalmem := 8589934592
    freemem := 4294967296
    cpus := 4
    pid := 1234
    nodeVersion := "v18.0.0"
    platform := "linux"
    hostname := "host" }

/-- A second sample of metrics, taken later in the same process. -/
def sampleMetricsLater : Metrics :=
  { sampleMetrics with nowIso := "2026-01-01T00:05:00.000Z", uptime := 300 }

/-! Helper lemmas shared by the claim theorems. -/

theorem runSeq_getElem (env : Env) (st : ProcState) (m : Metrics) :
    ∀ (reqs : List (String × String)) (hits i : ℕ),
      (runSeq env st m reqs hits)[i]? =
        reqs[i]?.map (fun q => handle env st (hits + i) m q.1 q.2) := by
  intro reqs
  induction reqs with
  | nil => intro hits i; simp [runSeq]
  | cons q rest ih =>
    intro hits i
    cases i with
    | zero => simp [runSeq]
    | succ n =>
      have h := ih (hits + 1) n
      simp only [runSeq, List.getElem?_cons_succ, h]
      have : hits + 1 + n = hits + (n + 1) := by omega
      rw [this]

theorem memCents_nonneg (b : ℕ) : 0 ≤ memCents b := by
  unfold memCents
  rw [round_eq]
  apply Int.floor_nonneg.mpr
  positivity

theorem memCents_mono {a b : ℕ} (h : a ≤ b) : memCents a ≤ memCents b := by
  unfold memCents
  rw [round_eq, round_eq]
  apply Int.floor_le_floor
  have hab : (a : ℚ) ≤ (b : ℚ) := by exact_mod_cast h
  have hmono : (a : ℚ) / 1024 / 1024 * 100 ≤ (b : ℚ) / 1024 / 1024 * 100 := by
    gcongr
  linarith

/-! Claim theorems. -/

/-- C1: the claim says the centralized error-handling middleware catches a
fault from any route and answers 500 with the JSON message Something went
wrong!.  In src/index.js the error middleware is registered at stack
position 6, before the routes: a fault raised in the GET / route handler
at position 7 finds no error layer after it, so it is answered by the
framework final handler, not by the application middleware, and the body
is not the JSON document the middleware builds. -/
theorem C1_route_fault_bypasses_error_middleware (env : Env) (msg : String) :
    appLayers[rootRouteIdx]? = some (.route "GET" "/") ∧
    appLayers[6]? = some .errHandler ∧
    hasErrHandlerAfter appLayers rootRouteIdx = false ∧
    handleFault env rootRouteIdx msg = expressDefaultFaultResponse msg ∧
    (handleFault env rootRouteIdx msg).status = 500 ∧
    (handleFault env rootRouteIdx msg).body ≠ (errorMiddlewareResponse env msg).body := by
  refine ⟨rfl, rfl, rfl, rfl, rfl, ?_⟩
  simp [handleFault, hasErrHandlerAfter, appLayers, isErrLayer, rootRouteIdx,
    expressDefaultFaultResponse, errorMiddlewareResponse]

/-- C2: a request within the rate-limit quota whose method and path match
neither GET / nor GET /health is answered 404 with a JSON body whose
message field is Route not found and whose timestamp field is the ISO
rendering of the current time. -/
theorem C2_unmatched_request_404 (env : Env) (st : ProcState) (hits : ℕ)
    (m : Metrics) (method path : String)
    (hq : hits < limiter.max)
    (h1 : ¬(method = "GET" ∧ path = "/"))
    (h2 : ¬(method = "GET" ∧ path = "/health")) :
    (handle env st hits m method path).status = 404 ∧
    ((handle env st hits m method path).jsonBody.bind
        (fun j => j.lookup "message")) = some (.str "Route not found") ∧
    ((handle env st hits m method path).jsonBody.bind
        (fun j => j.lookup "timestamp")) = some (.str m.nowIso) := by
  have hmax : limiter.max = 100 := rfl
  have hlim : ¬ limiter.max < hits + 1 := by omega
  have hh : handle env st hits m method path = ⟨404, .json (notFoundBody m)⟩ := by
    unfold handle
    rw [if_neg hlim, if_neg h1, if_neg h2]
  rw [hh]
  refine ⟨rfl, ?_, ?_⟩ <;>
    simp [Response.jsonBody, notFoundBody, mkObj, Json.lookup, lookupField]

/-- C2 witness: a GET request for a path that is not registered, from a
client with an empty counter, receives the 404 document. -/
theorem C2_witness :
    0 < limiter.max ∧
    ((handle sampleEnv sampleState 0 sampleMetrics "GET" "/missing").status = 404 ∧
     ((handle sampleEnv sampleState 0 sampleMetrics "GET" "/missing").jsonBody.bind
         (fun j => j.lookup "message")) = some (.str "Route not found") ∧
     ((handle sampleEnv sampleState 0 sampleMetrics "GET" "/missing").jsonBody.bind
         (fun j => j.lookup "timestamp")) = some (.str sampleMetrics.nowIso)) :=
  ⟨by decide,
   C2_unmatched_request_404 sampleEnv sampleState 0 sampleMetrics "GET" "/missing"
     (by decide) (by decide) (by decide)⟩

/-- C3: the limiter is configured with a fixed window of 15 minutes
(900000 ms) and a quota of 100 requests, with standard headers on and
legacy headers off; in any sequence of 101 requests from one client
inside a single window, the 101st is answered 429 with the configured
message. -/
theorem C3_101st_request_gets_429 (env : Env) (st : ProcState) (m : Metrics)
    (reqs : List (String × String)) (h : reqs.length = 101) :
    ((runSeq env st m reqs 0)[100]?).map Response.status = some 429 ∧
    ((runSeq env st m reqs 0)[100]?).map Response.body = some (.text limiter.message) ∧
    limiter.windowMs = 15 * 60 * 1000 ∧
    limiter.max = 100 ∧
    limiter.message = "Too many requests from this IP, please try again later." ∧
    limiter.standardHeaders = true ∧
    limiter.legacyHeaders = false := by
  have hlt : 100 < reqs.length := by omega
  have hg : (runSeq env st m reqs 0)[100]? =
      reqs[100]?.map (fun q => handle env st (0 + 100) m q.1 q.2) :=
    runSeq_getElem env st m reqs 0 100
  have hsome : reqs[100]? = some reqs[100] := List.getElem?_eq_getElem hlt
  have hhandle : handle env st (0 + 100) m (reqs[100]).1 (reqs[100]).2 =
      ⟨429, .text limiter.message⟩ := by
    unfold handle
    rw [if_pos (by decide)]
  rw [hg, hsome]
  refine ⟨?_, ?_, rfl, rfl, rfl, rfl, rfl⟩ <;> simp [hhandle]

/-- C3 witness: with 101 GET / requests from one client in one window,
the 101st is refused with 429 and the configured message. -/
theorem C3_witness :
    (List.replicate 101 (("GET" : String), ("/" : String))).length = 101 ∧
    (((runSeq sampleEnv sampleState sampleMetrics
          (List.replicate 101 (("GET" : String), ("/" : String))) 0)[100]?).map
        Response.status = some 429 ∧
     ((runSeq sampleEnv sampleState sampleMetrics
          (List.replicate 101 (("GET" : String), ("/" : String))) 0)[100]?).map
        Response.body = some (.text limiter.message) ∧
     limiter.windowMs = 15 * 60 * 1000 ∧
     limiter.max = 100 ∧
     limiter.message = "Too many requests from this IP, please try again later." ∧
     limiter.standardHeaders = true ∧
     limiter.legacyHeaders = false) :=
  ⟨by simp,
   C3_101st_request_gets_429 sampleEnv sampleState sampleMetrics
     (List.replicate 101 (("GET" : String), ("/" : String))) (by simp)⟩

/-- C4: a GET / request within the rate-limit quota is answered 200 with
the root document, whose status field is online; the server.startTime
field is the process startTime recorded at launch, so it is identical
across any two responses of one process lifetime, whatever the clock and
metric samples of each request. -/
theorem C4_root_online_and_startTime_fixed (env : Env) (st : ProcState)
    (hits : ℕ) (m m2 : Metrics) (hq : hits < limiter.max) :
    (handle env st hits m "GET" "/").status = 200 ∧
    (handle env st hits m "GET" "/").jsonBody = some (rootBody env st m) ∧
    (rootBody env st m).lookup "status" = some (.str "online") ∧
    getPath (rootBody env st m) ["server", "startTime"] = some (.str st.startTimeIso) ∧
    getPath (rootBody env st m2) ["server", "startTime"]
      = getPath (rootBody env st m) ["server", "startTime"] := by
  have hmax : limiter.max = 100 := rfl
  have hlim : ¬ limiter.max < hits + 1 := by omega
  have hh : handle env st hits m "GET" "/" = ⟨200, .json (rootBody env st m)⟩ := by
    unfold handle
    rw [if_neg hlim, if_pos ⟨rfl, rfl⟩]
  have hstart : ∀ mm : Metrics,
      getPath (rootBody env st mm) ["server", "startTime"] = some (.str st.startTimeIso) := by
    intro mm
    simp [rootBody, mkObj, Json.lookup, lookupField, getPath]
  refine ⟨by rw [hh], by rw [hh]; rfl, ?_, hstart m, by rw [hstart m, hstart m2]⟩
  simp [rootBody, mkObj, Json.lookup, lookupField]

/-- C4 witness: two calls of one process lifetime, five minutes apart,
both report status online and the same startTime. -/
theorem C4_witness :
    0 < limiter.max ∧
    ((handle sampleEnv sampleState 0 sampleMetrics "GET" "/").status = 200 ∧
     (handle sampleEnv sampleState 0 sampleMetrics "GET" "/").jsonBody
       = some (rootBody sampleEnv sampleState sampleMetrics) ∧
     (rootBody sampleEnv sampleState sampleMetrics).lookup "status"
       = some (.str "online") ∧
     getPath (rootBody sampleEnv sampleState sampleMetrics) ["server", "startTime"]
       = some (.str sampleState.startTimeIso) ∧
     getPath (rootBody sampleEnv sampleState sampleMetricsLater) ["server", "startTime"]
       = getPath (rootBody sampleEnv sampleState sampleMetrics) ["server", "startTime"]) :=
  ⟨by decide,
   C4_root_online_and_startTime_fixed sampleEnv sampleState 0 sampleMetrics
     sampleMetricsLater (by decide)⟩

/-- C5 (amended): a GET /health request within the rate-limit quota is
answered 200 with the health document, whose status field is healthy; the
memory fields, named used and total, are strings of the rounded megabyte
value followed by MB, and their numeric cores are non-negative and
ordered whenever the sampled heapUsed does not exceed heapTotal. -/
theorem C5_health_status_and_memory_order (env : Env) (st : ProcState)
    (hits : ℕ) (m : Metrics)
    (hq : hits < limiter.max) (hm : m.heapUsed ≤ m.heapTotal) :
    (handle env st hits m "GET" "/health").status = 200 ∧
    (handle env st hits m "GET" "/health").jsonBody = some (healthBody m) ∧
    (healthBody m).lookup "status" = some (.str "healthy") ∧
    getPath (healthBody m) ["process", "memory", "used"]
      = some (.str (mbString m.heapUsed)) ∧
    getPath (healthBody m) ["process", "memory", "total"]
      = some (.str (mbString m.heapTotal)) ∧
    0 ≤ memCents m.heapUsed ∧ 0 ≤ memCents m.heapTotal ∧
    memCents m.heapUsed ≤ memCents m.heapTotal := by
  have hmax : limiter.max = 100 := rfl
  have hlim : ¬ limiter.max < hits + 1 := by omega
  have hh : handle env st hits m "GET" "/health" = ⟨200, .json (healthBody m)⟩ := by
    unfold handle
    rw [if_neg hlim, if_neg (by decide), if_pos ⟨rfl, rfl⟩]
  refine ⟨by rw [hh], by rw [hh]; rfl, ?_, ?_, ?_,
    memCents_nonneg m.heapUsed, memCents_nonneg m.heapTotal, memCents_mono hm⟩ <;>
    simp [healthBody, mkObj, Json.lookup, lookupField, getPath]

/-- C5 witness: the sampled metrics with one MiB of heap used out of two
satisfy the quota and ordering hypotheses, and the health document is as
stated. -/
theorem C5_witness :
    (0 < limiter.max ∧ sampleMetrics.heapUsed ≤ sampleMetrics.heapTotal) ∧
    ((handle sampleEnv sampleState 0 sampleMetrics "GET" "/health").status = 200 ∧
     (handle sampleEnv sampleState 0 sampleMetrics "GET" "/health").jsonBody
       = some (healthBody sampleMetrics) ∧
     (healthBody sampleMetrics).lookup "status" = some (.str "healthy") ∧
     getPath (healthBody sampleMetrics) ["process", "memory", "used"]
       = some (.str (mbString sampleMetrics.heapUsed)) ∧
     getPath (healthBody sampleMetrics) ["process", "memory", "total"]
       = some (.str (mbString sampleMetrics.heapTotal)) ∧
     0 ≤ memCents sampleMetrics.heapUsed ∧ 0 ≤ memCents sampleMetrics.heapTotal ∧
     memCents sampleMetrics.heapUsed ≤ memCents sampleMetrics.heapTotal) :=
  ⟨⟨by decide, by decide⟩,
   C5_health_status_and_memory_order sampleEnv sampleState 0 sampleMetrics
     (by decide) (by decide)⟩

/-- C5 counterexample: the health document carries no field named usedMB;
the value lives in a string field named used, here the string 1MB. -/
theorem C5_counterexample_no_usedMB_field :
    getPath (healthBody sampleMetrics) ["process", "memory", "usedMB"] = none ∧
    getPath (healthBody sampleMetrics) ["process", "memory", "used"]
      = some (.str "1MB") := by
  have h : ((1048576 : ℕ) : ℚ) / 1024 / 1024 * 100 = (100 : ℚ) := by norm_num
  have h1 : memCents 1048576 = 100 := by
    unfold memCents
    rw [h]
    exact round_ofNat 100
  constructor
  · simp [healthBody, mkObj, getPath, Json.lookup, lookupField, sampleMetrics]
  · simp [healthBody, mkObj, getPath, Json.lookup, lookupField, sampleMetrics,
      mbString, h1]
    decide

/-- C6: the error middleware answers 500 with message Something went
wrong!; the error field is absent unless NODE_ENV is exactly the string
development, in which case it carries the fault message, non-empty when
the message is. -/
theorem C6_error_detail_iff_development (env : Env) (msg : String)
    (hmsg : msg ≠ "") :
    (errorMiddlewareResponse env msg).status = 500 ∧
    ((errorMiddlewareResponse env msg).jsonBody.bind (fun j => j.lookup "message"))
      = some (.str "Something went wrong!") ∧
    (env.nodeEnv ≠ some "development" →
      ((errorMiddlewareResponse env msg).jsonBody.bind (fun j => j.lookup "error"))
        = none) ∧
    (env.nodeEnv = some "development" →
      ((errorMiddlewareResponse env msg).jsonBody.bind (fun j => j.lookup "error"))
        = some (.str msg) ∧ Json.str msg ≠ Json.str "") := by
  refine ⟨rfl, ?_, ?_, ?_⟩
  · by_cases hdev : env.nodeEnv = some "development" <;>
      simp [errorMiddlewareResponse, Response.jsonBody, mkObj, Json.lookup,
        lookupField, hdev]
  · intro hdev
    simp [errorMiddlewareResponse, Response.jsonBody, mkObj, Json.lookup,
      lookupField, hdev]
  · intro hdev
    refine ⟨?_, by simp [hmsg]⟩
    simp [errorMiddlewareResponse, Response.jsonBody, mkObj, Json.lookup,
      lookupField, hdev]

/-- C6 witness: in development mode, a fault with message boom produces a
500 whose error field is the non-empty string boom. -/
theorem C6_witness :
    (("boom" : String) ≠ "") ∧
    ((errorMiddlewareResponse devEnv "boom").status = 500 ∧
     ((errorMiddlewareResponse devEnv "boom").jsonBody.bind (fun j => j.lookup "message"))
       = some (.str "Something went wrong!") ∧
     (devEnv.nodeEnv ≠ some "development" →
       ((errorMiddlewareResponse devEnv "boom").jsonBody.bind (fun j => j.lookup "error"))
         = none) ∧
     (devEnv.nodeEnv = some "development" →
       ((errorMiddlewareResponse devEnv "boom").jsonBody.bind (fun j => j.lookup "error"))
         = some (.str "boom") ∧ Json.str "boom" ≠ Json.str "")) :=
  ⟨by decide, C6_error_detail_iff_development devEnv "boom" (by decide)⟩

/-- C7 (amended): the health memory fields, named used and total, are
strings formed from the count of hundredths of a megabyte followed by MB,
and that count divided by 100 equals round(bytes / 1024 / 1024 * 100) / 100
for the sampled heapUsed and heapTotal byte counts. -/
theorem C7_memory_fields_are_MB_strings (m : Metrics) :
    getPath (healthBody m) ["process", "memory", "used"]
      = some (.str (hundredthsToJsStr (memCents m.heapUsed).toNat ++ "MB")) ∧
    getPath (healthBody m) ["process", "memory", "total"]
      = some (.str (hundredthsToJsStr (memCents m.heapTotal).toNat ++ "MB")) ∧
    ((memCents m.heapUsed).toNat : ℚ) / 100
      = (round ((m.heapUsed : ℚ) / 1024 / 1024 * 100) : ℚ) / 100 ∧
    ((memCents m.heapTotal).toNat : ℚ) / 100
      = (round ((m.heapTotal : ℚ) / 1024 / 1024 * 100) : ℚ) / 100 := by
  have hcast : ∀ b : ℕ, ((memCents b).toNat : ℚ) = ((memCents b : ℤ) : ℚ) := by
    intro b
    exact_mod_cast Int.toNat_of_nonneg (memCents_nonneg b)
  refine ⟨?_, ?_, ?_, ?_⟩
  · simp [healthBody, mkObj, Json.lookup, lookupField, getPath, mbString]
  · simp [healthBody, mkObj, Json.lookup, lookupField, getPath, mbString]
  · rw [hcast m.heapUsed]
    rfl
  · rw [hcast m.heapTotal]
    rfl

/-- C7 counterexample: the health document has no numeric totalMB field;
the total is the string 2MB, which is not a JSON number. -/
theorem C7_counterexample_total_is_string :
    getPath (healthBody sampleMetrics) ["process", "memory", "totalMB"] = none ∧
    getPath (healthBody sampleMetrics) ["process", "memory", "total"]
      = some (.str "2MB") ∧
    Json.str "2MB" ≠ Json.num 2 := by
  have h : ((2097152 : ℕ) : ℚ) / 1024 / 1024 * 100 = (200 : ℚ) := by norm_num
  have h2 : memCents 2097152 = 200 := by
    unfold memCents
    rw [h]
    exact round_ofNat 200
  refine ⟨?_, ?_, by simp⟩
  · simp [healthBody, mkObj, getPath, Json.lookup, lookupField, sampleMetrics]
  · simp [healthBody, mkObj, getPath, Json.lookup, lookupField, sampleMetrics,
      mbString, h2]
    decide

/-- C8: a GET / response within the rate-limit quota carries a rateLimit
object whose windowMs and max are the configured window of 15 minutes in
milliseconds, 900000, and the quota of 100 requests. -/
theorem C8_root_rateLimit_config (env : Env) (st : ProcState) (hits : ℕ)
    (m : Metrics) (hq : hits < limiter.max) :
    (handle env st hits m "GET" "/").jsonBody = some (rootBody env st m) ∧
    getPath (rootBody env st m) ["rateLimit", "windowMs"]
      = some (.num (limiter.windowMs : ℚ)) ∧
    getPath (rootBody env st m) ["rateLimit", "max"]
      = some (.num (limiter.max : ℚ)) ∧
    limiter.windowMs = 15 * 60 * 1000 ∧
    limiter.windowMs = 900000 ∧
    limiter.max = 100 := by
  have hmax : limiter.max = 100 := rfl
  have hlim : ¬ limiter.max < hits + 1 := by omega
  have hh : handle env st hits m "GET" "/" = ⟨200, .json (rootBody env st m)⟩ := by
    unfold handle
    rw [if_neg hlim, if_pos ⟨rfl, rfl⟩]
  refine ⟨by rw [hh]; rfl, ?_, ?_, rfl, rfl, rfl⟩ <;>
    simp [rootBody, mkObj, Json.lookup, lookupField, getPath]

/-- C8 witness: a first request from a fresh client sees windowMs 900000
and max 100 in the rateLimit object. -/
theorem C8_witness :
    0 < limiter.max ∧
    ((handle sampleEnv sampleState 0 sampleMetrics "GET" "/").jsonBody
       = some (rootBody sampleEnv sampleState sampleMetrics) ∧
     getPath (rootBody sampleEnv sampleState sampleMetrics) ["rateLimit", "windowMs"]
       = some (.num (limiter.windowMs : ℚ)) ∧
     getPath (rootBody sampleEnv sampleState sampleMetrics) ["rateLimit", "max"]
       = some (.num (limiter.max : ℚ)) ∧
     limiter.windowMs = 15 * 60 * 1000 ∧
     limiter.windowMs = 900000 ∧
     limiter.max = 100) :=
  ⟨by decide,
   C8_root_rateLimit_config sampleEnv sampleState 0 sampleMetrics (by decide)⟩

/-- C9: both process-fatal handlers, for an uncaught exception and for an
unobserved rejected promise, log once and then terminate the process with
exit status 1, a non-zero code, taking no further action. -/
theorem C9_fatal_handlers_log_then_exit_nonzero
    (errMessage promiseDesc reason : String) :
    terminatesNonzeroAfterLogging (uncaughtExceptionHandler errMessage) ∧
    terminatesNonzeroAfterLogging (unhandledRejectionHandler promiseDesc reason) :=
  ⟨⟨"Uncaught Exception: " ++ errMessage, 1, rfl, one_ne_zero⟩,
   ⟨"Unhandled Rejection at: " ++ promiseDesc ++ " reason: " ++ reason, 1,
     rfl, one_ne_zero⟩⟩

/-- C10: with NODE_ENV unset, the GET / document reports the environment
as development through the fallback default, while the strict equality
check in the error middleware is false for an unset variable, so the 500
body still omits the error field. -/
theorem C10_default_env_reported_but_not_dev_for_errors
    (fpid : Option String) (st : ProcState) (m : Metrics) (msg : String) :
    (rootBody ⟨none, fpid⟩ st m).lookup "environment"
      = some (.str "development") ∧
    (errorMiddlewareResponse ⟨none, fpid⟩ msg).status = 500 ∧
    ((errorMiddlewareResponse ⟨none, fpid⟩ msg).jsonBody.bind
        (fun j => j.lookup "error")) = none := by
  refine ⟨?_, rfl, ?_⟩
  · simp [rootBody, mkObj, Json.lookup, lookupField, envOrDefault]
  · simp [errorMiddlewareResponse, Response.jsonBody, mkObj, Json.lookup,
      lookupField]

end LevantFlow
